import Mathlib

/-!
Verification of the PANIC system alerter (`src/alerter/src/alerter/alerters/system.py`)
and the data transformers manager (`src/alerter/src/data_transformers/manager.py`).

Timestamps and metric samples are modelled as rationals, alert payloads as a
small record mirroring the constructor arguments of the alert classes, and the
per-system mutable state (`_system_initial_downtime_alert_sent`,
`_system_critical_timed_task_limiters`) as an explicit record threaded through
the processing functions.  The dictionaries in the source are keyed by
`system_id`; all updates performed while handling one message touch only that
message's `system_id` entry, so the model carries the single entry the message
addresses.
-/

inductive Severity
| INFO
| WARNING
| CRITICAL
| ERROR
deriving DecidableEq

/-- The five monitored metrics, named as the limiter-name constants at
`system.py:31-35`. -/
inductive MetricName
| open_file_descriptors
| system_cpu_usage
| system_storage_usage
| system_ram_usage
| system_is_down
deriving DecidableEq

/-- Which threshold an increased/decreased alert refers to: the second severity
string passed to the alert constructors at `system.py:381` and `system.py:408`
(there spelled as the strings WARNING / CRITICAL). -/
inductive ThresholdLevel
| warning
| critical
deriving DecidableEq

inductive AlertKind
| IncreasedAboveThreshold (metric : MetricName) (level : ThresholdLevel)
| DecreasedBelowThreshold (metric : MetricName) (level : ThresholdLevel)
| SystemWentDownAt
| SystemStillDown
| SystemBackUpAgain
| MetricNotFoundError
| InvalidUrl
deriving DecidableEq

/-- An emitted alert record: kind, severity, the timestamp passed to the
constructor (`meta_data.last_monitored` for results, `meta_data.time` for
errors) and the numeric payload (the current sample for threshold alerts, the
downtime for `SystemStillDown`, absent otherwise). -/
structure Alert where
  kind : AlertKind
  severity : Severity
  timestamp : ℚ
  value : Option ℚ
deriving DecidableEq

def increasedAbove (metric : MetricName) (level : ThresholdLevel) (sev : Severity)
    (current t : ℚ) : Alert :=
  { kind := .IncreasedAboveThreshold metric level, severity := sev,
    timestamp := t, value := some current }

def decreasedBelow (metric : MetricName) (level : ThresholdLevel) (sev : Severity)
    (current t : ℚ) : Alert :=
  { kind := .DecreasedBelowThreshold metric level, severity := sev,
    timestamp := t, value := some current }

/-- Modelled from the spec: `src/utils/timing.TimedTaskLimiter` is not under
`src/`.  Spec section 3: the limiter holds `last_done_at : instant | none` and a
fixed `interval : duration`, with `can_do(now) ⇔ last_done_at is none ∨
now − last_done_at ≥ interval`; `record(now)` (method
`set_last_time_that_did_task` in the callers) sets `last_done_at := now`
unconditionally; `reset()` sets it back to none. -/
structure TimedTaskLimiter where
  time_interval : ℚ
  last_time_that_did_task : Option ℚ
deriving DecidableEq

namespace TimedTaskLimiter

def can_do_task (l : TimedTaskLimiter) (now : ℚ) : Bool :=
  match l.last_time_that_did_task with
  | none => true
  | some last => decide (l.time_interval ≤ now - last)

def set_last_time_that_did_task (l : TimedTaskLimiter) (now : ℚ) : TimedTaskLimiter :=
  { l with last_time_that_did_task := some now }

def reset (l : TimedTaskLimiter) : TimedTaskLimiter :=
  { l with last_time_that_did_task := none }

end TimedTaskLimiter

/-- One metric's threshold configuration.  The source carries these entries as
string dictionaries decoded with `str_to_bool` and the numeric converters
(`system.py:365-370`, `system.py:236-243`); the model holds the decoded values.
The claims under verification all concern configurations whose thresholds are
present and numeric, which is what the rational fields express. -/
structure ThresholdSpec where
  enabled : Bool
  warning_enabled : Bool
  critical_enabled : Bool
  warning_threshold : ℚ
  critical_threshold : ℚ
  critical_repeat : ℚ

/-- `SystemAlertsConfig` (`src/configs/system_alerts`): the five per-metric
threshold specs read at `system.py:291-295`. -/
structure SystemAlertsConfig where
  open_file_descriptors : ThresholdSpec
  system_cpu_usage : ThresholdSpec
  system_storage_usage : ThresholdSpec
  system_ram_usage : ThresholdSpec
  system_is_down : ThresholdSpec

def specFor (cfg : SystemAlertsConfig) : MetricName → ThresholdSpec
| .open_file_descriptors => cfg.open_file_descriptors
| .system_cpu_usage => cfg.system_cpu_usage
| .system_storage_usage => cfg.system_storage_usage
| .system_ram_usage => cfg.system_ram_usage
| .system_is_down => cfg.system_is_down

/-- The per-`system_id` mutable state of the alerter: the
`_system_initial_downtime_alert_sent[system_id]` flag and the
`_system_critical_timed_task_limiters[system_id]` map. -/
structure SystemState where
  initial_downtime_alert_sent : Bool
  limiters : MetricName → TimedTaskLimiter

/-- `_create_state_for_system` (`system.py:53-85`) on a fresh `system_id`: flag
cleared, and each metric's limiter built from that metric's own
`critical_repeat`. -/
def initial_state (cfg : SystemAlertsConfig) : SystemState :=
  { initial_downtime_alert_sent := false,
    limiters := fun m => { time_interval := (specFor cfg m).critical_repeat,
                           last_time_that_did_task := none } }

/-- `_create_state_for_system` (`system.py:53-85`): lazily materialize the
state; an already-present entry is left untouched. -/
def create_state_for_system (cfg : SystemAlertsConfig) :
    Option SystemState → SystemState
| some st => st
| none => initial_state cfg

/-- Modelled from the spec: `src/utils/alert.floaty` is not under `src/`; it
coerces the raw previous sample to a float for the classifier, an absent sample
being read as zero.  Every claim below supplies a numeric previous sample, so
the default is never load-bearing. -/
def floaty : Option ℚ → ℚ
| some q => q
| none => 0

/-- The warning block of `_classify_alert` (`system.py:375-398`). -/
def classify_warning_block (current previous : ℚ) (config : ThresholdSpec)
    (metric : MetricName) (last_monitored : ℚ) : List Alert :=
  if config.warning_enabled then
    if config.warning_threshold ≤ current ∧ current < config.critical_threshold ∧
        ¬ config.warning_threshold ≤ previous then
      [increasedAbove metric .warning .WARNING current last_monitored]
    else if current < config.warning_threshold ∧ config.warning_threshold ≤ previous then
      [decreasedBelow metric .warning .INFO current last_monitored]
    else []
  else []

structure ClassifyResult where
  alerts : List Alert
  limiter : TimedTaskLimiter

/-- `_classify_alert` (`system.py:357-428`).  `config` is the threshold spec the
caller passes (for the ram path the source passes the cpu spec, see
`process_results`); `metric` stands for the pair of alert classes the caller
passes; `critical_limiter` is the metric's critical limiter looked up at
`system.py:371-373`.  Returns the alerts appended to `data_for_alerting` in
emission order together with the updated limiter. -/
def classify_alert (current previous : ℚ) (config : ThresholdSpec)
    (metric : MetricName) (critical_limiter : TimedTaskLimiter)
    (last_monitored : ℚ) : ClassifyResult :=
  let warning_alerts := classify_warning_block current previous config metric last_monitored
  if config.critical_enabled then
    if config.critical_threshold ≤ current ∧
        critical_limiter.can_do_task last_monitored then
      { alerts := warning_alerts ++
          [increasedAbove metric .critical .CRITICAL current last_monitored],
        limiter := critical_limiter.set_last_time_that_did_task last_monitored }
    else if config.warning_threshold < current ∧ current < config.critical_threshold ∧
        config.critical_threshold ≤ previous then
      { alerts := warning_alerts ++
          [decreasedBelow metric .critical .INFO current last_monitored],
        limiter := critical_limiter.reset }
    else { alerts := warning_alerts, limiter := critical_limiter }
  else { alerts := warning_alerts, limiter := critical_limiter }

/-- One metric's `{current, previous}` samples from an incoming result. -/
structure MetricPair where
  current : Option ℚ
  previous : Option ℚ
deriving DecidableEq

structure ResultMetrics where
  went_down_at : MetricPair
  open_file_descriptors : MetricPair
  system_storage_usage : MetricPair
  system_cpu_usage : MetricPair
  system_ram_usage : MetricPair
deriving DecidableEq

def pairFor (metrics : ResultMetrics) : MetricName → MetricPair
| .open_file_descriptors => metrics.open_file_descriptors
| .system_cpu_usage => metrics.system_cpu_usage
| .system_storage_usage => metrics.system_storage_usage
| .system_ram_usage => metrics.system_ram_usage
| .system_is_down => metrics.went_down_at

/-- The `is_down` block of `_process_results` (`system.py:297-314`): when the
metric is enabled and `went_down_at.previous` is non-null, emit
`SystemBackUpAgainAlert(INFO)`, clear the initial-downtime flag and reset the
`is_down` critical limiter; the value of `went_down_at.current` is not
consulted. -/
def backup_block (spec : ThresholdSpec) (went_down_at : MetricPair) (t : ℚ)
    (st : SystemState) : List Alert × SystemState :=
  if spec.enabled then
    match went_down_at.previous with
    | some _ =>
      ([{ kind := .SystemBackUpAgain, severity := .INFO, timestamp := t, value := none }],
       { st with initial_downtime_alert_sent := false,
                 limiters := Function.update st.limiters .system_is_down
                   (st.limiters .system_is_down).reset })
    | none => ([], st)
  else ([], st)

/-- One metric block of `_process_results` (`system.py:316-355`): gate on the
metric's own `enabled` flag and on `current not in [previous, None]`, then
classify with the threshold spec `used` (which for the ram block is the cpu
spec, `system.py:351`) against the metric's own critical limiter. -/
def threshold_block (gate used : ThresholdSpec) (metric : MetricName)
    (pair : MetricPair) (t : ℚ) (st : SystemState) : List Alert × SystemState :=
  if gate.enabled then
    match pair.current with
    | none => ([], st)
    | some c =>
      if pair.current = pair.previous then ([], st)
      else
        let r := classify_alert c (floaty pair.previous) used metric
          (st.limiters metric) t
        (r.alerts, { st with limiters := Function.update st.limiters metric r.limiter })
  else ([], st)

/-- `_process_results` (`system.py:289-355`): the back-up block followed by the
four metric blocks in source order; alerts are appended to the shared
`data_for_alerting` list in that order.  The ram block gates on the ram spec but
classifies with the cpu spec, mirroring `system.py:346-355`. -/
def process_results (cfg : SystemAlertsConfig) (metrics : ResultMetrics) (t : ℚ)
    (st : SystemState) : List Alert × SystemState :=
  let r1 := backup_block cfg.system_is_down metrics.went_down_at t st
  let r2 := threshold_block cfg.open_file_descriptors cfg.open_file_descriptors
    .open_file_descriptors metrics.open_file_descriptors t r1.2
  let r3 := threshold_block cfg.system_storage_usage cfg.system_storage_usage
    .system_storage_usage metrics.system_storage_usage t r2.2
  let r4 := threshold_block cfg.system_cpu_usage cfg.system_cpu_usage
    .system_cpu_usage metrics.system_cpu_usage t r3.2
  let r5 := threshold_block cfg.system_ram_usage cfg.system_cpu_usage
    .system_ram_usage metrics.system_ram_usage t r4.2
  (r1.1 ++ r2.1 ++ r3.1 ++ r4.1 ++ r5.1, r5.2)

/-- `_process_errors` (`system.py:203-287`).  `went_down_at_current` is
`data.went_down_at.current` (read only on code 5004) and `t` is
`meta_data.time`; `downtime = t - went_down_at_current` (`system.py:234`). -/
def process_errors (cfg : SystemAlertsConfig) (code : ℤ)
    (went_down_at_current t : ℚ) (st : SystemState) : List Alert × SystemState :=
  if code = 5003 then
    ([{ kind := .MetricNotFoundError, severity := .ERROR, timestamp := t, value := none }], st)
  else if code = 5009 then
    ([{ kind := .InvalidUrl, severity := .ERROR, timestamp := t, value := none }], st)
  else if code = 5004 then
    if cfg.system_is_down.enabled then
      let downtime := t - went_down_at_current
      let lim := st.limiters .system_is_down
      if ¬ st.initial_downtime_alert_sent then
        if cfg.system_is_down.critical_enabled ∧
            cfg.system_is_down.critical_threshold ≤ downtime then
          ([{ kind := .SystemWentDownAt, severity := .CRITICAL, timestamp := t, value := none }],
           { st with initial_downtime_alert_sent := true,
                     limiters := Function.update st.limiters .system_is_down
                       (lim.set_last_time_that_did_task t) })
        else if cfg.system_is_down.warning_enabled ∧
            cfg.system_is_down.warning_threshold ≤ downtime then
          ([{ kind := .SystemWentDownAt, severity := .WARNING, timestamp := t, value := none }],
           { st with initial_downtime_alert_sent := true,
                     limiters := Function.update st.limiters .system_is_down
                       (lim.set_last_time_that_did_task t) })
        else ([], st)
      else
        if cfg.system_is_down.critical_enabled ∧ lim.can_do_task t then
          ([{ kind := .SystemStillDown, severity := .CRITICAL, timestamp := t,
              value := some downtime }],
           { st with
             limiters :=
               Function.update st.limiters .system_is_down
                 (lim.set_last_time_that_did_task t) })
        else ([], st)
    else ([], st)
  else ([], st)

/-- The two message arms a delivery can classify (`system.py:144-158`): a
result with the metric pairs and `meta_data.last_monitored`, or an error with
its code, `data.went_down_at.current` and `meta_data.time`. -/
inductive SAMessage
| result (metrics : ResultMetrics) (last_monitored : ℚ)
| error (code : ℤ) (went_down_at_current : ℚ) (time : ℚ)
deriving DecidableEq

/-- One classification step of `_process_data` (`system.py:143-158`) for a
system whose state entry already exists: dispatch on the message arm. -/
def step (cfg : SystemAlertsConfig) (st : SystemState) :
    SAMessage → List Alert × SystemState
| .result metrics t => process_results cfg metrics t st
| .error code wda t => process_errors cfg code wda t st

/-- A full `_process_data` classification step including the lazy state
creation of `system.py:149` / `system.py:155`. -/
def sa_step (cfg : SystemAlertsConfig) (ost : Option SystemState)
    (msg : SAMessage) : List Alert × SystemState :=
  step cfg (create_state_for_system cfg ost) msg

def foldSteps (cfg : SystemAlertsConfig) (st : SystemState) :
    List SAMessage → SystemState
| [] => st
| msg :: rest => foldSteps cfg (step cfg st msg).2 rest

/-- Whether an alert is a CRITICAL alert for the given metric: a
critical-threshold increase for a usage metric, or a CRITICAL
went-down/still-down alert for `system_is_down`. -/
def criticalFor (m : MetricName) (a : Alert) : Bool :=
  match a.kind with
  | .IncreasedAboveThreshold mi level => mi == m && level == .critical
  | .SystemWentDownAt => m == .system_is_down && a.severity == .CRITICAL
  | .SystemStillDown => m == .system_is_down
  | _ => false

def emitsCriticalAt (out : List Alert) (m : MetricName) (t : ℚ) : Prop :=
  ∃ a ∈ out, criticalFor m a = true ∧ a.timestamp = t

/-- Along a run, every step neither emits a CRITICAL alert for metric `m` nor
leaves `m`'s critical limiter reset (a reset is observable as the limiter's
last-done instant becoming absent). -/
def quietFor (cfg : SystemAlertsConfig) (m : MetricName) :
    SystemState → List SAMessage → Prop
| _, [] => True
| st, msg :: rest =>
  (∀ a ∈ (step cfg st msg).1, criticalFor m a = false) ∧
  ((step cfg st msg).2.limiters m).last_time_that_did_task ≠ none ∧
  quietFor cfg m (step cfg st msg).2 rest

/-- The metric a threshold alert is about, if any. -/
def tagOf : AlertKind → Option MetricName
| .IncreasedAboveThreshold m _ => some m
| .DecreasedBelowThreshold m _ => some m
| _ => none

/-- Sanity check, scenario 1 of the spec: warning 70 / critical 90, a rise
from 60 to 85 emits exactly the IncreasedAbove(WARNING) alert. -/
theorem classify_alert_scenario_warning : (classify_alert 85 60
    { enabled := true, warning_enabled := true, critical_enabled := true,
      warning_threshold := 70, critical_threshold := 90, critical_repeat := 600 }
    .system_cpu_usage { time_interval := 600, last_time_that_did_task := none }
    100).alerts =
    [increasedAbove .system_cpu_usage .warning .WARNING 85 100] := by decide

/-- How the single try-block around `_send_data` and `_send_heartbeat` can end
(`system.py:183-201`): confirmed delivery, a
`MessageWasNotDeliveredException`, or any other exception. -/
inductive SendFailure
| notDelivered
| other
deriving DecidableEq

/-- The externally observable actions of one `_process_data` call
(`system.py:131-201`): how many times the delivery was acknowledged, whether
`_place_latest_data_on_queue` ran, whether `_send_data` (the drain of the
publishing buffer) was invoked, whether the component heartbeat was sent, and
whether an exception propagated out of the handler. -/
structure ProcessDataOutcome where
  acks : ℕ
  placed_on_queue : Bool
  drain_invoked : Bool
  heartbeat_sent : Bool
  raised : Bool
deriving DecidableEq

/-- The control flow of `_process_data` (`system.py:131-201`).
`classification_ok` is `not processing_error`: false when decoding, dispatch or
classification raised (`system.py:167-170`).  `basic_ack` runs unconditionally
at `system.py:173`; `_place_latest_data_on_queue` only when no processing error
(`system.py:179-180`); `_send_data` is then invoked unconditionally inside the
try block (`system.py:184`); the heartbeat is sent only when there was no
processing error and `_send_data` succeeded (`system.py:186-191`); a
not-delivered failure is logged and swallowed (`system.py:192-196`) while any
other failure is re-raised (`system.py:197-201`), after the ack. -/
def process_data_flow (classification_ok : Bool) (send_failure : Option SendFailure) :
    ProcessDataOutcome :=
  let placed := classification_ok
  match send_failure with
  | none =>
    { acks := 1, placed_on_queue := placed, drain_invoked := true,
      heartbeat_sent := classification_ok, raised := false }
  | some .notDelivered =>
    { acks := 1, placed_on_queue := placed, drain_invoked := true,
      heartbeat_sent := false, raised := false }
  | some .other =>
    { acks := 1, placed_on_queue := placed, drain_invoked := true,
      heartbeat_sent := false, raised := true }

/-- Modelled from the spec: Python's `round` (used at `system.py:112` as
`round(self.publishing_queue.maxsize / 5)`) rounds to the nearest integer with
ties going to the even integer. -/
def pythonRound (q : ℚ) : ℤ :=
  if q - ⌊q⌋ < 1/2 then ⌊q⌋
  else if 1/2 < q - ⌊q⌋ then ⌊q⌋ + 1
  else if 2 ∣ ⌊q⌋ then ⌊q⌋ else ⌊q⌋ + 1

/-- The consumer prefetch count set by `_initialize_rabbitmq`
(`system.py:111-113`): `round(publishing_queue.maxsize / 5)`. -/
def prefetch_count (maxsize : ℕ) : ℤ :=
  pythonRound ((maxsize : ℚ) / 5)

/-- Modelled from the spec: the two supervised transformer names
(`SYSTEM_DATA_TRANSFORMER_NAME`, `GITHUB_DATA_TRANSFORMER_NAME` from
`src/utils/constants`, not under `src/`); only their distinctness matters. -/
inductive TransformerName
| system_data_transformer
| github_data_transformer
deriving DecidableEq

/-- The manager's `transformer_process_dict` after `start()` has run
(`manager.py:167-173` starts both workers before consuming): one entry per
transformer, each carrying its process's `is_alive()` status.  Restarting a
worker replaces its dict entry in place, so the iteration order
system-then-github is stable. -/
structure ManagerState where
  system_alive : Bool
  github_alive : Bool
deriving DecidableEq

/-- `_start_transformers_processes` (`manager.py:136-165`): start a fresh
(alive) process for each transformer that is absent or not alive; alive ones
are left untouched. -/
def start_transformers_processes (st : ManagerState) : ManagerState :=
  let st1 := if st.system_alive then st else { st with system_alive := true }
  if st1.github_alive then st1 else { st1 with github_alive := true }

/-- The heartbeat composed by `_process_ping` (`manager.py:101-113`) plus the
record of which children were joined. -/
structure PingHeartbeat where
  running_processes : List TransformerName
  dead_processes : List TransformerName
  joined : List TransformerName
deriving DecidableEq

/-- `_process_ping` (`manager.py:95-134`): poll `is_alive()` on every child in
dict order, listing it under running or dead and joining dead ones; if any
child is dead, restart the missing ones; then publish the already-composed
heartbeat.  Returns the published heartbeat and the state after the restarts. -/
def process_ping (st : ManagerState) : PingHeartbeat × ManagerState :=
  let running :=
    (if st.system_alive then [TransformerName.system_data_transformer] else []) ++
    (if st.github_alive then [TransformerName.github_data_transformer] else [])
  let dead :=
    (if st.system_alive then [] else [TransformerName.system_data_transformer]) ++
    (if st.github_alive then [] else [TransformerName.github_data_transformer])
  let st1 := if dead.length ≠ 0 then start_transformers_processes st else st
  ({ running_processes := running, dead_processes := dead, joined := dead }, st1)

section EasyClaims

/-- A disabled threshold spec used as filler in concrete configurations. -/
def disabledSpec : ThresholdSpec :=
  { enabled := false, warning_enabled := false, critical_enabled := false,
    warning_threshold := 0, critical_threshold := 0, critical_repeat := 600 }

/-- A cpu spec with warning 70 / critical 90. -/
def cpuSpec70_90 : ThresholdSpec :=
  { enabled := true, warning_enabled := true, critical_enabled := true,
    warning_threshold := 70, critical_threshold := 90, critical_repeat := 600 }

/-- A ram spec with warning 10 / critical 20. -/
def ramSpec10_20 : ThresholdSpec :=
  { enabled := true, warning_enabled := true, critical_enabled := true,
    warning_threshold := 10, critical_threshold := 20, critical_repeat := 600 }

def cfgRamBug : SystemAlertsConfig :=
  { open_file_descriptors := disabledSpec, system_cpu_usage := cpuSpec70_90,
    system_storage_usage := disabledSpec, system_ram_usage := ramSpec10_20,
    system_is_down := disabledSpec }

def nullPair : MetricPair := { current := none, previous := none }

def ramBugMetrics : ResultMetrics :=
  { went_down_at := nullPair, open_file_descriptors := nullPair,
    system_storage_usage := nullPair, system_cpu_usage := nullPair,
    system_ram_usage := { current := some 15, previous := some 5 } }

/-- C2: the code violates the claim.  With the ram spec at warning 10 /
critical 20 and the cpu spec at warning 70 / critical 90, a ram sample rising
from 5 to 15 crosses the ram warning threshold, yet `_process_results` emits
nothing, because `system.py:351` passes the cpu spec (`cpu_use`) to
`_classify_alert` for the ram metric.  Classifying the same samples against the
ram metric's own spec — what the claim and the spec require — emits the
`IncreasedAbove(WARNING)` alert, while classifying against the cpu spec emits
nothing. -/
theorem ram_block_uses_cpu_config :
    (process_results cfgRamBug ramBugMetrics 100 (initial_state cfgRamBug)).1 = [] ∧
    (classify_alert 15 5 cfgRamBug.system_ram_usage .system_ram_usage
      ((initial_state cfgRamBug).limiters .system_ram_usage) 100).alerts =
      [increasedAbove .system_ram_usage .warning .WARNING 15 100] ∧
    (classify_alert 15 5 cfgRamBug.system_cpu_usage .system_ram_usage
      ((initial_state cfgRamBug).limiters .system_ram_usage) 100).alerts = [] := by
  decide

/-- C6 (counterexample): on a delivery whose classification failed
(`classification_ok = false`) and whose drain succeeds, `_process_data` still
invokes `_send_data` — the publishing buffer is drained even though
classification did not succeed, refuting the claim's "drained ... only if
classification succeeded". -/
theorem process_data_drain_counterexample :
    (process_data_flow false none).drain_invoked = true ∧
    ¬ ((process_data_flow false none).drain_invoked = true → false = true) := by
  decide

/-- C6 (amended): for every delivery, the delivery is acknowledged exactly once,
unconditionally after classification; the classified alerts are pushed onto the
publishing buffer and a component heartbeat emitted only if classification
succeeded; the drain of the publishing buffer is invoked unconditionally after
the ack; a publish-not-delivered failure during draining is suppressed while
any other draining failure propagates after the ack. -/
theorem process_data_flow_spec (ok : Bool) (f : Option SendFailure) :
    (process_data_flow ok f).acks = 1 ∧
    (process_data_flow ok f).placed_on_queue = ok ∧
    (process_data_flow ok f).drain_invoked = true ∧
    ((process_data_flow ok f).heartbeat_sent = true ↔ ok = true ∧ f = none) ∧
    ((process_data_flow ok f).raised = true ↔ f = some .other) := by
  cases ok <;> rcases f with _ | (_ | _) <;> decide

/-- C8 (counterexample): for a publishing buffer of capacity 7 the source sets
the prefetch to `round(7 / 5) = 1`, not `ceil(7 / 5) = 2`. -/
theorem prefetch_count_ceil_counterexample :
    prefetch_count 7 = 1 ∧ ⌈(7 : ℚ) / 5⌉ = 2 ∧ prefetch_count 7 ≠ ⌈(7 : ℚ) / 5⌉ := by
  have h1 : prefetch_count 7 = 1 := by
    unfold prefetch_count pythonRound
    norm_num
  have h2 : ⌈(7 : ℚ) / 5⌉ = 2 := by
    norm_num [Int.ceil_eq_iff]
  refine ⟨h1, h2, ?_⟩
  rw [h1, h2]
  decide

/-- C8 (amended): the prefetch count equals `capacity / 5` rounded to the
nearest integer — written in closed form as `(capacity + 2) / 5` in natural
division; ties to even never arise because `capacity / 5` is never
half-integral.  This equals the ceiling only when `capacity mod 5` is 0, 3
or 4. -/
theorem prefetch_count_eq_nearest (n : ℕ) : prefetch_count n = ((n + 2) / 5 : ℕ) := by
  obtain ⟨q, r, hr, rfl⟩ : ∃ q r, r < 5 ∧ n = 5 * q + r :=
    ⟨n / 5, n % 5, Nat.mod_lt _ (by norm_num), by omega⟩
  have hx : ((5 * q + r : ℕ) : ℚ) / 5 = (q : ℚ) + (r : ℚ) / 5 := by
    push_cast
    ring
  unfold prefetch_count pythonRound
  rw [hx]
  interval_cases r <;>
    · rw [show ((q : ℚ) + _ / 5) = ((q : ℕ) : ℚ) + _ / 5 from rfl, Int.floor_nat_add]
      norm_num
      omega

/-- C9: on every ping, the composed heartbeat lists each supervised child under
running iff its process is alive and under dead otherwise, joining the dead
ones; if any child is dead, the workers are restarted before the heartbeat is
published, so the heartbeat of that ping still lists the restarted child as
dead and the next ping lists it as running. -/
theorem manager_ping_heartbeat (st : ManagerState) :
    (TransformerName.system_data_transformer ∈ (process_ping st).1.running_processes ↔
      st.system_alive = true) ∧
    (TransformerName.system_data_transformer ∈ (process_ping st).1.dead_processes ↔
      st.system_alive = false) ∧
    (TransformerName.github_data_transformer ∈ (process_ping st).1.running_processes ↔
      st.github_alive = true) ∧
    (TransformerName.github_data_transformer ∈ (process_ping st).1.dead_processes ↔
      st.github_alive = false) ∧
    (process_ping st).1.joined = (process_ping st).1.dead_processes ∧
    ((process_ping st).1.dead_processes ≠ [] →
      (process_ping st).2 = { system_alive := true, github_alive := true }) ∧
    (st.system_alive = false →
      TransformerName.system_data_transformer ∈ (process_ping st).1.dead_processes ∧
      TransformerName.system_data_transformer ∈
        (process_ping (process_ping st).2).1.running_processes) ∧
    (st.github_alive = false →
      TransformerName.github_data_transformer ∈ (process_ping st).1.dead_processes ∧
      TransformerName.github_data_transformer ∈
        (process_ping (process_ping st).2).1.running_processes) := by
  obtain ⟨s, g⟩ := st
  cases s <;> cases g <;> decide

end EasyClaims

/-- C1: for every enabled metric classification whose thresholds are numeric
with W < C and whose current sample is non-null and differs from the previous
one: when warning is enabled, an IncreasedAbove(WARNING) alert is emitted iff
W ≤ current < C and not W ≤ previous, and a DecreasedBelow(INFO, from-warning)
alert is emitted iff current < W ≤ previous; when critical is enabled, an
IncreasedAbove(CRITICAL) alert is emitted with the critical limiter recorded at
the monitoring instant iff current ≥ C and the limiter permits, and a
DecreasedBelow(INFO, from-critical) alert is emitted with the limiter reset iff
W < current < C ≤ previous. -/
theorem classify_alert_spec (config : ThresholdSpec) (metric : MetricName)
    (current previous : ℚ) (lim : TimedTaskLimiter) (t : ℚ)
    (hWC : config.warning_threshold < config.critical_threshold)
    (hne : current ≠ previous) :
    (config.warning_enabled = true →
      ((increasedAbove metric .warning .WARNING current t ∈
          (classify_alert current previous config metric lim t).alerts) ↔
        (config.warning_threshold ≤ current ∧ current < config.critical_threshold ∧
         ¬ config.warning_threshold ≤ previous)) ∧
      ((decreasedBelow metric .warning .INFO current t ∈
          (classify_alert current previous config metric lim t).alerts) ↔
        (current < config.warning_threshold ∧ config.warning_threshold ≤ previous))) ∧
    (config.critical_enabled = true →
      ((increasedAbove metric .critical .CRITICAL current t ∈
          (classify_alert current previous config metric lim t).alerts ∧
        (classify_alert current previous config metric lim t).limiter =
          lim.set_last_time_that_did_task t) ↔
        (config.critical_threshold ≤ current ∧ lim.can_do_task t = true)) ∧
      ((decreasedBelow metric .critical .INFO current t ∈
          (classify_alert current previous config metric lim t).alerts ∧
        (classify_alert current previous config metric lim t).limiter = lim.reset) ↔
        (config.warning_threshold < current ∧ current < config.critical_threshold ∧
         config.critical_threshold ≤ previous))) := by
  unfold classify_alert classify_warning_block
  split_ifs <;>
    simp_all [increasedAbove, decreasedBelow, TimedTaskLimiter.set_last_time_that_did_task,
      TimedTaskLimiter.reset, Alert.mk.injEq, TimedTaskLimiter.mk.injEq]
  rename_i hw hP hc hC
  exact fun _ => absurd hP.2.1 (not_lt.mpr hC.1)

/-- Witness for C1: at warning 70 / critical 90, a rise from 60 to 85 emits the
IncreasedAbove(WARNING) alert. -/
theorem classify_alert_spec_witness :
    increasedAbove .system_cpu_usage .warning .WARNING 85 100 ∈
      (classify_alert 85 60 cpuSpec70_90 .system_cpu_usage
        { time_interval := 600, last_time_that_did_task := none } 100).alerts :=
  ((classify_alert_spec cpuSpec70_90 .system_cpu_usage 85 60
      { time_interval := 600, last_time_that_did_task := none } 100
      (by decide) (by decide)).1 (by decide)).1.mpr (by decide)

/-- C10: when previous is below the warning threshold and current is at or
above the critical threshold, both warning and critical enabled and the
limiter permitting, exactly one alert is emitted — the IncreasedAbove(CRITICAL)
— and no WARNING alert accompanies it, because the warning-increase branch
additionally requires current < critical_threshold. -/
theorem critical_crossing_single_alert (config : ThresholdSpec) (metric : MetricName)
    (current previous : ℚ) (lim : TimedTaskLimiter) (t : ℚ)
    (hw : config.warning_enabled = true) (hc : config.critical_enabled = true)
    (hWC : config.warning_threshold < config.critical_threshold)
    (hprev : previous < config.warning_threshold)
    (hcur : config.critical_threshold ≤ current)
    (hcan : lim.can_do_task t = true) :
    (classify_alert current previous config metric lim t).alerts =
      [increasedAbove metric .critical .CRITICAL current t] := by
  unfold classify_alert classify_warning_block
  split_ifs <;> simp_all <;> linarith

/-- Witness for C10: previous 60 below warning 70, current 95 above critical
90, fresh limiter: the single CRITICAL increase alert. -/
theorem critical_crossing_single_alert_witness :
    (classify_alert 95 60 cpuSpec70_90 .system_cpu_usage
      { time_interval := 600, last_time_that_did_task := none } 100).alerts =
      [increasedAbove .system_cpu_usage .critical .CRITICAL 95 100] :=
  critical_crossing_single_alert cpuSpec70_90 .system_cpu_usage 95 60
    { time_interval := 600, last_time_that_did_task := none } 100
    (by decide) (by decide) (by decide) (by decide) (by decide) (by decide)

/-- C4: on an error with code 5004 when is_down is enabled: if the initial
downtime alert was not yet sent, a single SystemWentDownAt alert is emitted —
CRITICAL when critical is enabled and the downtime reaches the critical
threshold, otherwise WARNING when warning is enabled and the downtime reaches
the warning threshold — and in either case the is_down limiter is recorded at
the monitoring time and the initial-downtime flag is set; if the flag is
already set, no WentDown alert is emitted again — only a
SystemStillDown(CRITICAL, downtime) alert when critical is enabled and the
limiter permits, which also records the limiter. -/
theorem process_errors_downtime_spec (cfg : SystemAlertsConfig)
    (wda t : ℚ) (st : SystemState)
    (hen : cfg.system_is_down.enabled = true) :
    (st.initial_downtime_alert_sent = false →
      ((cfg.system_is_down.critical_enabled = true ∧
          cfg.system_is_down.critical_threshold ≤ t - wda) →
        (process_errors cfg 5004 wda t st).1 =
          [{ kind := .SystemWentDownAt, severity := .CRITICAL, timestamp := t,
             value := none }] ∧
        (process_errors cfg 5004 wda t st).2.limiters .system_is_down =
          (st.limiters .system_is_down).set_last_time_that_did_task t ∧
        (process_errors cfg 5004 wda t st).2.initial_downtime_alert_sent = true) ∧
      (¬ (cfg.system_is_down.critical_enabled = true ∧
            cfg.system_is_down.critical_threshold ≤ t - wda) →
        (cfg.system_is_down.warning_enabled = true ∧
          cfg.system_is_down.warning_threshold ≤ t - wda) →
        (process_errors cfg 5004 wda t st).1 =
          [{ kind := .SystemWentDownAt, severity := .WARNING, timestamp := t,
             value := none }] ∧
        (process_errors cfg 5004 wda t st).2.limiters .system_is_down =
          (st.limiters .system_is_down).set_last_time_that_did_task t ∧
        (process_errors cfg 5004 wda t st).2.initial_downtime_alert_sent = true)) ∧
    (st.initial_downtime_alert_sent = true →
      (∀ a ∈ (process_errors cfg 5004 wda t st).1, a.kind ≠ .SystemWentDownAt) ∧
      ((cfg.system_is_down.critical_enabled = true ∧
          (st.limiters .system_is_down).can_do_task t = true) →
        (process_errors cfg 5004 wda t st).1 =
          [{ kind := .SystemStillDown, severity := .CRITICAL, timestamp := t,
             value := some (t - wda) }] ∧
        (process_errors cfg 5004 wda t st).2.limiters .system_is_down =
          (st.limiters .system_is_down).set_last_time_that_did_task t) ∧
      (¬ (cfg.system_is_down.critical_enabled = true ∧
            (st.limiters .system_is_down).can_do_task t = true) →
        (process_errors cfg 5004 wda t st).1 = [])) := by
  unfold process_errors
  norm_num [hen]
  split_ifs with h1 h2 h3 <;> simp_all [Function.update_same]

def cfgDown : SystemAlertsConfig :=
  { open_file_descriptors := disabledSpec, system_cpu_usage := disabledSpec,
    system_storage_usage := disabledSpec, system_ram_usage := disabledSpec,
    system_is_down :=
      { enabled := true, warning_enabled := true, critical_enabled := true,
        warning_threshold := 10, critical_threshold := 20, critical_repeat := 300 } }

/-- Witness for C4: the spec's scenario 5 — error 5004 at time 30 for a system
down since 0 (downtime 30, critical threshold 20) emits the CRITICAL WentDown
alert and sets the flag. -/
theorem process_errors_downtime_spec_witness :
    (process_errors cfgDown 5004 0 30 (initial_state cfgDown)).1 =
      [{ kind := .SystemWentDownAt, severity := .CRITICAL, timestamp := 30,
         value := none }] ∧
    (process_errors cfgDown 5004 0 30 (initial_state cfgDown)).2.initial_downtime_alert_sent
      = true := by
  have h := ((process_errors_downtime_spec cfgDown 0 30 (initial_state cfgDown)
    (by decide)).1 (by decide)).1 (by norm_num [cfgDown])
  exact ⟨h.1, h.2.2⟩

section BlockLemmas

/-- Every alert of the warning block is a warning-level threshold alert for the
block's metric, stamped with the monitoring instant; in particular it is never
CRITICAL for any metric. -/
theorem classify_warning_block_mem (current previous : ℚ) (config : ThresholdSpec)
    (metric : MetricName) (t : ℚ) (a : Alert)
    (ha : a ∈ classify_warning_block current previous config metric t) :
    a.timestamp = t ∧ tagOf a.kind = some metric ∧ ∀ m, criticalFor m a = false := by
  unfold classify_warning_block at ha
  split_ifs at ha <;>
    simp_all [increasedAbove, decreasedBelow, tagOf, criticalFor]

/-- Every alert of `classify_alert` is a threshold alert for the block's
metric, stamped with the monitoring instant. -/
theorem classify_alert_mem (current previous : ℚ) (config : ThresholdSpec)
    (metric : MetricName) (lim : TimedTaskLimiter) (t : ℚ) (a : Alert)
    (ha : a ∈ (classify_alert current previous config metric lim t).alerts) :
    a.timestamp = t ∧ tagOf a.kind = some metric := by
  unfold classify_alert at ha
  split_ifs at ha <;>
    simp only [List.mem_append, List.mem_singleton] at ha <;>
    first
    | exact (classify_warning_block_mem _ _ _ _ _ _ ha).imp id And.left
    | rcases ha with ha | ha
      · exact (classify_warning_block_mem _ _ _ _ _ _ ha).imp id And.left
      · subst ha
        simp [increasedAbove, decreasedBelow, tagOf]

/-- If `classify_alert` emits a CRITICAL alert for any metric, the block was
the critical-increase branch: the metric is the block's own, the limiter
permitted and got recorded at the monitoring instant, and the critical
threshold was reached. -/
theorem classify_alert_critical (current previous : ℚ) (config : ThresholdSpec)
    (metric : MetricName) (lim : TimedTaskLimiter) (t : ℚ) (m : MetricName)
    (h : ∃ a ∈ (classify_alert current previous config metric lim t).alerts,
      criticalFor m a = true) :
    m = metric ∧
    (classify_alert current previous config metric lim t).limiter =
      lim.set_last_time_that_did_task t ∧
    lim.can_do_task t = true := by
  obtain ⟨a, ha, hc⟩ := h
  unfold classify_alert at ha ⊢
  split_ifs at ha ⊢ with h1 h2 h3 <;>
    simp only [List.mem_append, List.mem_singleton] at ha
  · rcases ha with ha | ha
    · exact absurd hc (by simp [(classify_warning_block_mem _ _ _ _ _ _ ha).2.2])
    · subst ha
      simp only [increasedAbove, criticalFor] at hc
      simp only [Bool.and_eq_true, beq_iff_eq] at hc
      exact ⟨hc.1.symm, rfl, h2.2⟩
  · rcases ha with ha | ha
    · exact absurd hc (by simp [(classify_warning_block_mem _ _ _ _ _ _ ha).2.2])
    · subst ha
      simp [decreasedBelow, criticalFor] at hc
  · exact absurd hc (by simp [(classify_warning_block_mem _ _ _ _ _ _ ha).2.2])
  · exact absurd hc (by simp [(classify_warning_block_mem _ _ _ _ _ _ ha).2.2])

/-- If `classify_alert` emits no CRITICAL alert for its metric and its output
limiter is not in the reset state, the limiter is unchanged. -/
theorem classify_alert_quiet (current previous : ℚ) (config : ThresholdSpec)
    (metric : MetricName) (lim : TimedTaskLimiter) (t : ℚ)
    (h1 : ∀ a ∈ (classify_alert current previous config metric lim t).alerts,
      criticalFor metric a = false)
    (h2 : ((classify_alert current previous config metric lim t).limiter).last_time_that_did_task
      ≠ none) :
    (classify_alert current previous config metric lim t).limiter = lim := by
  unfold classify_alert at h1 h2 ⊢
  split_ifs at h1 h2 ⊢ with ha hb hc
  · exfalso
    have := h1 (increasedAbove metric .critical .CRITICAL current t) (by simp)
    simp [increasedAbove, criticalFor] at this
  · exact absurd rfl h2
  · rfl
  · rfl

/-- `classify_alert` never changes the limiter's interval. -/
theorem classify_alert_interval (current previous : ℚ) (config : ThresholdSpec)
    (metric : MetricName) (lim : TimedTaskLimiter) (t : ℚ) :
    ((classify_alert current previous config metric lim t).limiter).time_interval =
      lim.time_interval := by
  unfold classify_alert
  split_ifs <;> rfl

end BlockLemmas

section BlockLemmas2

/-- Case split for `threshold_block`: either it is skipped (disabled, null or
unchanged current) leaving everything untouched, or the current sample is some
`c` and it returns the classifier's output with the metric's limiter updated. -/
theorem threshold_block_cases (gate used : ThresholdSpec) (metric : MetricName)
    (pair : MetricPair) (t : ℚ) (st : SystemState) :
    threshold_block gate used metric pair t st = ([], st) ∨
    ∃ c, pair.current = some c ∧ pair.current ≠ pair.previous ∧
      threshold_block gate used metric pair t st =
        ((classify_alert c (floaty pair.previous) used metric (st.limiters metric) t).alerts,
         { st with
           limiters := Function.update st.limiters metric
             (classify_alert c (floaty pair.previous) used metric (st.limiters metric) t).limiter }) := by
  unfold threshold_block
  rcases hcc : pair.current with _ | c <;> dsimp only
  · split_ifs <;> exact Or.inl rfl
  · split_ifs with h1 h2
    · exact Or.inl rfl
    · exact Or.inr ⟨c, rfl, h2, rfl⟩
    · exact Or.inl rfl

/-- A skipped metric block: null or unchanged current sample means no output
and no state change for that block. -/
theorem threshold_block_skip (gate used : ThresholdSpec) (metric : MetricName)
    (pair : MetricPair) (t : ℚ) (st : SystemState)
    (h : pair.current = pair.previous ∨ pair.current = none) :
    threshold_block gate used metric pair t st = ([], st) := by
  rcases threshold_block_cases gate used metric pair t st with hc | ⟨c, hc, hne, _⟩
  · exact hc
  · rcases h with h | h
    · exact absurd h hne
    · rw [h] at hc
      exact absurd hc (by simp)

/-- Every alert of a metric block is a threshold alert for the block's metric
at the monitoring instant. -/
theorem threshold_block_mem (gate used : ThresholdSpec) (metric : MetricName)
    (pair : MetricPair) (t : ℚ) (st : SystemState) (a : Alert)
    (ha : a ∈ (threshold_block gate used metric pair t st).1) :
    a.timestamp = t ∧ tagOf a.kind = some metric := by
  rcases threshold_block_cases gate used metric pair t st with hc | ⟨c, _, _, hc⟩ <;>
    rw [hc] at ha <;> dsimp only at ha
  · simp at ha
  · exact classify_alert_mem _ _ _ _ _ _ _ ha

/-- A metric block never changes the initial-downtime flag. -/
theorem threshold_block_sent (gate used : ThresholdSpec) (metric : MetricName)
    (pair : MetricPair) (t : ℚ) (st : SystemState) :
    (threshold_block gate used metric pair t st).2.initial_downtime_alert_sent =
      st.initial_downtime_alert_sent := by
  rcases threshold_block_cases gate used metric pair t st with hc | ⟨c, _, _, hc⟩ <;>
    rw [hc]

/-- A metric block leaves every other metric's limiter untouched. -/
theorem threshold_block_other (gate used : ThresholdSpec) (metric : MetricName)
    (pair : MetricPair) (t : ℚ) (st : SystemState) (m : MetricName)
    (hm : m ≠ metric) :
    (threshold_block gate used metric pair t st).2.limiters m = st.limiters m := by
  rcases threshold_block_cases gate used metric pair t st with hc | ⟨c, _, _, hc⟩ <;>
    rw [hc] <;> dsimp only
  all_goals first
  | rfl
  | exact Function.update_noteq hm _ _

/-- A metric block never changes any limiter's interval. -/
theorem threshold_block_interval (gate used : ThresholdSpec) (metric : MetricName)
    (pair : MetricPair) (t : ℚ) (st : SystemState) (m : MetricName) :
    ((threshold_block gate used metric pair t st).2.limiters m).time_interval =
      (st.limiters m).time_interval := by
  rcases threshold_block_cases gate used metric pair t st with hc | ⟨c, _, _, hc⟩ <;>
    rw [hc] <;> dsimp only
  all_goals try rfl
  all_goals by_cases hm : m = metric
  · subst hm
    rw [Function.update_same]
    exact classify_alert_interval _ _ _ _ _ _
  · rw [Function.update_noteq hm]

/-- If a metric block emits a CRITICAL alert for some metric, it is the block's
own metric, and the block recorded that metric's limiter — which permitted —
at the monitoring instant. -/
theorem threshold_block_critical (gate used : ThresholdSpec) (metric : MetricName)
    (pair : MetricPair) (t : ℚ) (st : SystemState) (m : MetricName) (a : Alert)
    (ha : a ∈ (threshold_block gate used metric pair t st).1)
    (hcrit : criticalFor m a = true) :
    m = metric ∧
    (threshold_block gate used metric pair t st).2.limiters metric =
      (st.limiters metric).set_last_time_that_did_task t ∧
    (st.limiters metric).can_do_task t = true := by
  rcases threshold_block_cases gate used metric pair t st with hc | ⟨c, _, _, hc⟩ <;>
    rw [hc] at ha ⊢ <;> dsimp only at ha ⊢
  · simp at ha
  · have h := classify_alert_critical c (floaty pair.previous) used metric
      (st.limiters metric) t m ⟨a, ha, hcrit⟩
    refine ⟨h.1, ?_, h.2.2⟩
    rw [Function.update_same]
    exact h.2.1

/-- If a metric block emits no CRITICAL alert for its own metric and leaves its
limiter non-reset, the limiter is unchanged. -/
theorem threshold_block_quiet (gate used : ThresholdSpec) (metric : MetricName)
    (pair : MetricPair) (t : ℚ) (st : SystemState)
    (h1 : ∀ a ∈ (threshold_block gate used metric pair t st).1,
      criticalFor metric a = false)
    (h2 : ((threshold_block gate used metric pair t st).2.limiters metric).last_time_that_did_task
      ≠ none) :
    (threshold_block gate used metric pair t st).2.limiters metric = st.limiters metric := by
  rcases threshold_block_cases gate used metric pair t st with hc | ⟨c, _, _, hc⟩ <;>
    rw [hc] at h1 h2 ⊢ <;> dsimp only at h1 h2 ⊢
  all_goals try rfl
  all_goals rw [Function.update_same] at h2 ⊢
  all_goals exact classify_alert_quiet _ _ _ _ _ _ h1 h2

/-- Case split for the back-up block: skipped, or fired with the BackUp alert,
flag cleared and the is_down limiter reset. -/
theorem backup_block_cases (spec : ThresholdSpec) (wda : MetricPair) (t : ℚ)
    (st : SystemState) :
    backup_block spec wda t st = ([], st) ∨
    (spec.enabled = true ∧ wda.previous ≠ none ∧
     backup_block spec wda t st =
       ([{ kind := .SystemBackUpAgain, severity := .INFO, timestamp := t, value := none }],
        { st with
          initial_downtime_alert_sent := false,
          limiters := Function.update st.limiters .system_is_down
            (st.limiters .system_is_down).reset })) := by
  unfold backup_block
  rcases hp : wda.previous with _ | p <;> dsimp only <;> split_ifs with h1
  · exact Or.inl rfl
  · exact Or.inl rfl
  · exact Or.inr ⟨h1, by simp, rfl⟩
  · exact Or.inl rfl

/-- The back-up block never emits a CRITICAL alert. -/
theorem backup_block_not_critical (spec : ThresholdSpec) (wda : MetricPair) (t : ℚ)
    (st : SystemState) (m : MetricName) (a : Alert)
    (ha : a ∈ (backup_block spec wda t st).1) : criticalFor m a = false := by
  rcases backup_block_cases spec wda t st with hc | ⟨_, _, hc⟩ <;>
    rw [hc] at ha <;> dsimp only at ha
  · simp at ha
  · simp only [List.mem_singleton] at ha
    subst ha
    simp [criticalFor]

/-- The back-up block leaves every limiter other than is_down untouched. -/
theorem backup_block_other (spec : ThresholdSpec) (wda : MetricPair) (t : ℚ)
    (st : SystemState) (m : MetricName) (hm : m ≠ .system_is_down) :
    (backup_block spec wda t st).2.limiters m = st.limiters m := by
  rcases backup_block_cases spec wda t st with hc | ⟨_, _, hc⟩ <;>
    rw [hc] <;> dsimp only
  all_goals first
  | rfl
  | exact Function.update_noteq hm _ _

/-- If the back-up block leaves the is_down limiter non-reset, it did not fire
and the whole state is unchanged. -/
theorem backup_block_quiet (spec : ThresholdSpec) (wda : MetricPair) (t : ℚ)
    (st : SystemState)
    (h2 : ((backup_block spec wda t st).2.limiters .system_is_down).last_time_that_did_task
      ≠ none) :
    (backup_block spec wda t st).2 = st := by
  rcases backup_block_cases spec wda t st with hc | ⟨_, _, hc⟩ <;>
    rw [hc] at h2 ⊢ <;> dsimp only at h2 ⊢
  all_goals try rfl
  all_goals rw [Function.update_same] at h2
  all_goals exact absurd rfl h2

/-- The back-up block never changes any limiter's interval. -/
theorem backup_block_interval (spec : ThresholdSpec) (wda : MetricPair) (t : ℚ)
    (st : SystemState) (m : MetricName) :
    ((backup_block spec wda t st).2.limiters m).time_interval =
      (st.limiters m).time_interval := by
  rcases backup_block_cases spec wda t st with hc | ⟨_, _, hc⟩ <;>
    rw [hc] <;> dsimp only
  all_goals try rfl
  all_goals by_cases hm : m = .system_is_down
  · subst hm
    rw [Function.update_same]
    rfl
  · rw [Function.update_noteq hm]

end BlockLemmas2

section ErrorLemmas

/-- The error path never emits a CRITICAL alert for a usage metric. -/
theorem process_errors_no_threshold_critical (cfg : SystemAlertsConfig) (code : ℤ)
    (wda t : ℚ) (st : SystemState) (m : MetricName) (hm : m ≠ .system_is_down) :
    ∀ a ∈ (process_errors cfg code wda t st).1, criticalFor m a = false := by
  intro a ha
  unfold process_errors at ha
  split_ifs at ha <;> dsimp only at ha <;> try split_ifs at ha
  all_goals try dsimp only at ha
  all_goals simp_all [criticalFor]

/-- The error path leaves every limiter other than is_down untouched. -/
theorem process_errors_other_limiters (cfg : SystemAlertsConfig) (code : ℤ)
    (wda t : ℚ) (st : SystemState) (m : MetricName) (hm : m ≠ .system_is_down) :
    (process_errors cfg code wda t st).2.limiters m = st.limiters m := by
  unfold process_errors
  split_ifs <;> dsimp only <;> try split_ifs
  all_goals try dsimp only
  all_goals first
  | rfl
  | exact Function.update_noteq hm _ _

/-- The error path never changes any limiter's interval. -/
theorem process_errors_interval (cfg : SystemAlertsConfig) (code : ℤ)
    (wda t : ℚ) (st : SystemState) (m : MetricName) :
    ((process_errors cfg code wda t st).2.limiters m).time_interval =
      (st.limiters m).time_interval := by
  unfold process_errors
  split_ifs <;> dsimp only <;> try split_ifs
  all_goals try dsimp only
  all_goals try rfl
  all_goals by_cases hm : m = .system_is_down
  all_goals try (subst hm; rw [Function.update_same]; rfl)
  all_goals rw [Function.update_noteq hm]

/-- The error path never clears the initial-downtime flag. -/
theorem process_errors_sent (cfg : SystemAlertsConfig) (code : ℤ)
    (wda t : ℚ) (st : SystemState) :
    (process_errors cfg code wda t st).2.initial_downtime_alert_sent =
      st.initial_downtime_alert_sent ∨
    (process_errors cfg code wda t st).2.initial_downtime_alert_sent = true := by
  unfold process_errors
  split_ifs <;> dsimp only <;> try split_ifs
  all_goals try dsimp only
  all_goals first
  | exact Or.inl rfl
  | exact Or.inr rfl

/-- If the error path emits a CRITICAL alert for is_down, it records the
is_down limiter at the monitoring time, leaves the flag set, and — when the
flag was already set — the limiter permitted. -/
theorem process_errors_critical (cfg : SystemAlertsConfig) (code : ℤ)
    (wda t : ℚ) (st : SystemState) (a : Alert)
    (ha : a ∈ (process_errors cfg code wda t st).1)
    (hc : criticalFor .system_is_down a = true) :
    a.timestamp = t ∧
    (process_errors cfg code wda t st).2.limiters .system_is_down =
      (st.limiters .system_is_down).set_last_time_that_did_task t ∧
    (process_errors cfg code wda t st).2.initial_downtime_alert_sent = true ∧
    (st.initial_downtime_alert_sent = true →
      (st.limiters .system_is_down).can_do_task t = true) := by
  unfold process_errors at ha ⊢
  split_ifs at ha ⊢ <;> dsimp only at ha ⊢ <;> try split_ifs at ha ⊢
  all_goals try dsimp only at ha ⊢
  all_goals simp_all [criticalFor, Function.update_same]

/-- With the flag set and no CRITICAL is_down alert emitted, the error path
changes nothing. -/
theorem process_errors_quiet (cfg : SystemAlertsConfig) (code : ℤ)
    (wda t : ℚ) (st : SystemState)
    (hsent : st.initial_downtime_alert_sent = true)
    (h1 : ∀ a ∈ (process_errors cfg code wda t st).1,
      criticalFor .system_is_down a = false) :
    (process_errors cfg code wda t st).2 = st := by
  unfold process_errors at h1 ⊢
  split_ifs at h1 ⊢ <;> dsimp only at h1 ⊢ <;> try split_ifs at h1 ⊢
  all_goals try dsimp only at h1 ⊢
  all_goals try rfl
  all_goals first
  | exact absurd hsent (by assumption)
  | (exfalso
     have := h1 _ (List.mem_singleton_self _)
     simp [criticalFor] at this)

end ErrorLemmas

section ResultLemmas

/-- Sequential decomposition of `_process_results` into its five blocks. -/
theorem process_results_decomp (cfg : SystemAlertsConfig) (metrics : ResultMetrics)
    (t : ℚ) (st : SystemState) :
    ∃ a1 s1 a2 s2 a3 s3 a4 s4 a5 s5,
      backup_block cfg.system_is_down metrics.went_down_at t st = (a1, s1) ∧
      threshold_block cfg.open_file_descriptors cfg.open_file_descriptors
        .open_file_descriptors metrics.open_file_descriptors t s1 = (a2, s2) ∧
      threshold_block cfg.system_storage_usage cfg.system_storage_usage
        .system_storage_usage metrics.system_storage_usage t s2 = (a3, s3) ∧
      threshold_block cfg.system_cpu_usage cfg.system_cpu_usage
        .system_cpu_usage metrics.system_cpu_usage t s3 = (a4, s4) ∧
      threshold_block cfg.system_ram_usage cfg.system_cpu_usage
        .system_ram_usage metrics.system_ram_usage t s4 = (a5, s5) ∧
      process_results cfg metrics t st = (a1 ++ a2 ++ a3 ++ a4 ++ a5, s5) := by
  exact ⟨_, _, _, _, _, _, _, _, _, _, rfl, rfl, rfl, rfl, rfl, rfl⟩

/-- When is_down is enabled and the previous went-down sample is non-null, the
back-up block fires. -/
theorem backup_block_fired (spec : ThresholdSpec) (wda : MetricPair) (t : ℚ)
    (st : SystemState) (he : spec.enabled = true) (hp : wda.previous ≠ none) :
    backup_block spec wda t st =
      ([{ kind := .SystemBackUpAgain, severity := .INFO, timestamp := t, value := none }],
       { st with
         initial_downtime_alert_sent := false,
         limiters := Function.update st.limiters .system_is_down
           (st.limiters .system_is_down).reset }) := by
  unfold backup_block
  rcases hq : wda.previous with _ | p
  · exact absurd hq hp
  · rw [if_pos he]

/-- A threshold alert about some metric is never the BackUp alert. -/
theorem tagOf_ne_backup {k : AlertKind} {m : MetricName} (h : tagOf k = some m) :
    (k == AlertKind.SystemBackUpAgain) = false := by
  cases k <;> simp_all [tagOf]

end ResultLemmas

/-- C5: for every result processed with is_down enabled and a non-null
`went_down_at.previous`, exactly one SystemBackUpAgain(INFO) alert is emitted,
the initial-downtime flag is cleared and the is_down critical limiter reset —
with the non-null previous as the sole trigger, regardless of
`went_down_at.current`; these are the only actions that ever clear the flag
back to false, and the lazy state creation never resets an existing entry. -/
theorem backup_transition_spec (cfg : SystemAlertsConfig) :
    (∀ metrics t st, cfg.system_is_down.enabled = true →
      metrics.went_down_at.previous ≠ none →
      List.countP (fun a => a.kind == AlertKind.SystemBackUpAgain)
        (process_results cfg metrics t st).1 = 1 ∧
      (process_results cfg metrics t st).2.initial_downtime_alert_sent = false ∧
      ((process_results cfg metrics t st).2.limiters .system_is_down).last_time_that_did_task
        = none) ∧
    (∀ st msg, st.initial_downtime_alert_sent = true →
      (step cfg st msg).2.initial_downtime_alert_sent = false →
      ∃ metrics t, msg = .result metrics t ∧ cfg.system_is_down.enabled = true ∧
        metrics.went_down_at.previous ≠ none ∧
        { kind := AlertKind.SystemBackUpAgain, severity := Severity.INFO,
          timestamp := t, value := none } ∈ (step cfg st msg).1) ∧
    (∀ st, create_state_for_system cfg (some st) = st) := by
  refine ⟨?_, ?_, fun st => rfl⟩
  · intro metrics t st he hp
    obtain ⟨a1, s1, a2, s2, a3, s3, a4, s4, a5, s5, hB, hT2, hT3, hT4, hT5, hPR⟩ :=
      process_results_decomp cfg metrics t st
    have hfired := backup_block_fired cfg.system_is_down metrics.went_down_at t st he hp
    rw [hB] at hfired
    have ha1 :
        a1 = [{ kind := .SystemBackUpAgain, severity := .INFO, timestamp := t, value := none }] :=
      congrArg Prod.fst hfired
    have hs1 : s1 = { st with
        initial_downtime_alert_sent := false,
        limiters := Function.update st.limiters .system_is_down
          (st.limiters .system_is_down).reset } := congrArg Prod.snd hfired
    have hmem2 : ∀ a ∈ a2, tagOf a.kind = some MetricName.open_file_descriptors :=
      fun a ha => (threshold_block_mem _ _ _ _ _ _ a (by rw [hT2]; exact ha)).2
    have hmem3 : ∀ a ∈ a3, tagOf a.kind = some MetricName.system_storage_usage :=
      fun a ha => (threshold_block_mem _ _ _ _ _ _ a (by rw [hT3]; exact ha)).2
    have hmem4 : ∀ a ∈ a4, tagOf a.kind = some MetricName.system_cpu_usage :=
      fun a ha => (threshold_block_mem _ _ _ _ _ _ a (by rw [hT4]; exact ha)).2
    have hmem5 : ∀ a ∈ a5, tagOf a.kind = some MetricName.system_ram_usage :=
      fun a ha => (threshold_block_mem _ _ _ _ _ _ a (by rw [hT5]; exact ha)).2
    have hsent : s5.initial_downtime_alert_sent = false := by
      have e5 := threshold_block_sent cfg.system_ram_usage cfg.system_cpu_usage
        .system_ram_usage metrics.system_ram_usage t s4
      rw [hT5] at e5
      have e4 := threshold_block_sent cfg.system_cpu_usage cfg.system_cpu_usage
        .system_cpu_usage metrics.system_cpu_usage t s3
      rw [hT4] at e4
      have e3 := threshold_block_sent cfg.system_storage_usage cfg.system_storage_usage
        .system_storage_usage metrics.system_storage_usage t s2
      rw [hT3] at e3
      have e2 := threshold_block_sent cfg.open_file_descriptors cfg.open_file_descriptors
        .open_file_descriptors metrics.open_file_descriptors t s1
      rw [hT2] at e2
      rw [e5, e4, e3, e2, hs1]
    have hlim : s5.limiters .system_is_down = (st.limiters .system_is_down).reset := by
      have o5 := threshold_block_other cfg.system_ram_usage cfg.system_cpu_usage
        .system_ram_usage metrics.system_ram_usage t s4 .system_is_down (by decide)
      rw [hT5] at o5
      have o4 := threshold_block_other cfg.system_cpu_usage cfg.system_cpu_usage
        .system_cpu_usage metrics.system_cpu_usage t s3 .system_is_down (by decide)
      rw [hT4] at o4
      have o3 := threshold_block_other cfg.system_storage_usage cfg.system_storage_usage
        .system_storage_usage metrics.system_storage_usage t s2 .system_is_down (by decide)
      rw [hT3] at o3
      have o2 := threshold_block_other cfg.open_file_descriptors cfg.open_file_descriptors
        .open_file_descriptors metrics.open_file_descriptors t s1 .system_is_down (by decide)
      rw [hT2] at o2
      rw [o5, o4, o3, o2, hs1]
      show Function.update st.limiters MetricName.system_is_down
        (st.limiters MetricName.system_is_down).reset MetricName.system_is_down =
        (st.limiters MetricName.system_is_down).reset
      exact Function.update_same _ _ _
    refine ⟨?_, ?_, ?_⟩
    · rw [hPR]
      show List.countP (fun a => a.kind == AlertKind.SystemBackUpAgain)
        (a1 ++ a2 ++ a3 ++ a4 ++ a5) = 1
      have hz2 : List.countP (fun a => a.kind == AlertKind.SystemBackUpAgain) a2 = 0 :=
        List.countP_eq_zero.mpr (fun a ha => by simp [tagOf_ne_backup (hmem2 a ha)])
      have hz3 : List.countP (fun a => a.kind == AlertKind.SystemBackUpAgain) a3 = 0 :=
        List.countP_eq_zero.mpr (fun a ha => by simp [tagOf_ne_backup (hmem3 a ha)])
      have hz4 : List.countP (fun a => a.kind == AlertKind.SystemBackUpAgain) a4 = 0 :=
        List.countP_eq_zero.mpr (fun a ha => by simp [tagOf_ne_backup (hmem4 a ha)])
      have hz5 : List.countP (fun a => a.kind == AlertKind.SystemBackUpAgain) a5 = 0 :=
        List.countP_eq_zero.mpr (fun a ha => by simp [tagOf_ne_backup (hmem5 a ha)])
      rw [List.countP_append, List.countP_append, List.countP_append, List.countP_append,
        hz2, hz3, hz4, hz5, ha1]
      rfl
    · rw [hPR]
      exact hsent
    · rw [hPR]
      show (s5.limiters MetricName.system_is_down).last_time_that_did_task = none
      rw [hlim]
      rfl
  · intro st msg hsent hclear
    cases msg with
    | error code wda tm =>
      exfalso
      have hclear' : (process_errors cfg code wda tm st).2.initial_downtime_alert_sent
          = false := hclear
      rcases process_errors_sent cfg code wda tm st with h | h
      · rw [hclear', hsent] at h
        exact Bool.false_ne_true h
      · rw [hclear'] at h
        exact Bool.false_ne_true h
    | result metrics tm =>
      have hclear' : (process_results cfg metrics tm st).2.initial_downtime_alert_sent
          = false := hclear
      obtain ⟨a1, s1, a2, s2, a3, s3, a4, s4, a5, s5, hB, hT2, hT3, hT4, hT5, hPR⟩ :=
        process_results_decomp cfg metrics tm st
      have hsent5 : s5.initial_downtime_alert_sent = s1.initial_downtime_alert_sent := by
        have e5 := threshold_block_sent cfg.system_ram_usage cfg.system_cpu_usage
          .system_ram_usage metrics.system_ram_usage tm s4
        rw [hT5] at e5
        have e4 := threshold_block_sent cfg.system_cpu_usage cfg.system_cpu_usage
          .system_cpu_usage metrics.system_cpu_usage tm s3
        rw [hT4] at e4
        have e3 := threshold_block_sent cfg.system_storage_usage cfg.system_storage_usage
          .system_storage_usage metrics.system_storage_usage tm s2
        rw [hT3] at e3
        have e2 := threshold_block_sent cfg.open_file_descriptors cfg.open_file_descriptors
          .open_file_descriptors metrics.open_file_descriptors tm s1
        rw [hT2] at e2
        rw [e5, e4, e3, e2]
      have hclear5 : s5.initial_downtime_alert_sent = false := by
        rw [hPR] at hclear'
        exact hclear'
      rcases backup_block_cases cfg.system_is_down metrics.went_down_at tm st
        with hc | ⟨he, hp, hc⟩
      · exfalso
        rw [hB] at hc
        have hs1 : s1 = st := congrArg Prod.snd hc
        rw [hsent5, hs1, hsent] at hclear5
        exact Bool.false_ne_true hclear5.symm
      · rw [hB] at hc
        have ha1 :
            a1 = [{ kind := .SystemBackUpAgain, severity := .INFO, timestamp := tm, value := none }] :=
          congrArg Prod.fst hc
        refine ⟨metrics, tm, rfl, he, hp, ?_⟩
        have hfst : (step cfg st (SAMessage.result metrics tm)).1 =
            a1 ++ a2 ++ a3 ++ a4 ++ a5 := congrArg Prod.fst hPR
        rw [hfst, ha1]
        simp

/-- The back-up block's alerts are never threshold alerts. -/
theorem backup_block_tag (spec : ThresholdSpec) (wda : MetricPair) (t : ℚ)
    (st : SystemState) : ∀ a ∈ (backup_block spec wda t st).1, tagOf a.kind = none := by
  intro a ha
  rcases backup_block_cases spec wda t st with hc | ⟨_, _, hc⟩ <;>
    rw [hc] at ha <;> dsimp only at ha
  · simp at ha
  · simp only [List.mem_singleton] at ha
    subst ha
    rfl

def isDownOnlySpec : ThresholdSpec :=
  { enabled := true, warning_enabled := false, critical_enabled := false,
    warning_threshold := 0, critical_threshold := 0, critical_repeat := 600 }

def cfgDownOnly : SystemAlertsConfig :=
  { open_file_descriptors := disabledSpec, system_cpu_usage := disabledSpec,
    system_storage_usage := disabledSpec, system_ram_usage := disabledSpec,
    system_is_down := isDownOnlySpec }

def metricsBackUp : ResultMetrics :=
  { went_down_at := { current := some 5, previous := some 5 },
    open_file_descriptors := nullPair, system_storage_usage := nullPair,
    system_cpu_usage := nullPair, system_ram_usage := nullPair }

/-- Witness for C5: with is_down enabled and `went_down_at = {current = 5,
previous = 5}`, exactly one BackUp alert is emitted and the flag ends false. -/
theorem backup_transition_spec_witness :
    List.countP (fun a => a.kind == AlertKind.SystemBackUpAgain)
      (process_results cfgDownOnly metricsBackUp 100 (initial_state cfgDownOnly)).1 = 1 ∧
    (process_results cfgDownOnly metricsBackUp 100
      (initial_state cfgDownOnly)).2.initial_downtime_alert_sent = false :=
  have h := (backup_transition_spec cfgDownOnly).1 metricsBackUp 100
    (initial_state cfgDownOnly) (by decide) (by decide)
  ⟨h.1, h.2.1⟩

/-- C7 (counterexample): a result whose `went_down_at` pair has
`current = previous = 5` — the metric's previous equals its current value —
still appends the BackUp alert, refuting the claim for the `went_down_at`
metric: `_process_results` fires BackUp on any non-null previous without
consulting current (`system.py:303`). -/
theorem backup_on_unchanged_counterexample :
    metricsBackUp.went_down_at.current = metricsBackUp.went_down_at.previous ∧
    (process_results cfgDownOnly metricsBackUp 100 (initial_state cfgDownOnly)).1 =
      [{ kind := .SystemBackUpAgain, severity := .INFO, timestamp := 100, value := none }] := by
  decide

/-- C7 (amended): for each of the four usage metrics, processing a result
appends no alert about that metric when the metric's current sample equals its
previous one or is null.  The `went_down_at` pair is exempt: a non-null
previous triggers the BackUp alert regardless of its current value. -/
theorem no_alert_on_unchanged_or_null (cfg : SystemAlertsConfig)
    (metrics : ResultMetrics) (t : ℚ) (st : SystemState) (m : MetricName)
    (hm : m ≠ .system_is_down)
    (hskip : (pairFor metrics m).current = (pairFor metrics m).previous ∨
      (pairFor metrics m).current = none) :
    ∀ a ∈ (process_results cfg metrics t st).1, tagOf a.kind ≠ some m := by
  obtain ⟨a1, s1, a2, s2, a3, s3, a4, s4, a5, s5, hB, hT2, hT3, hT4, hT5, hPR⟩ :=
    process_results_decomp cfg metrics t st
  intro a ha
  have hfst : (process_results cfg metrics t st).1 = a1 ++ a2 ++ a3 ++ a4 ++ a5 :=
    congrArg Prod.fst hPR
  rw [hfst] at ha
  simp only [List.mem_append] at ha
  rcases ha with ((((ha | ha) | ha) | ha) | ha)
  · have := backup_block_tag cfg.system_is_down metrics.went_down_at t st a
      (by rw [hB]; exact ha)
    rw [this]
    simp
  · by_cases hm2 : m = .open_file_descriptors
    · subst hm2
      have hsk := threshold_block_skip cfg.open_file_descriptors cfg.open_file_descriptors
        .open_file_descriptors metrics.open_file_descriptors t s1 hskip
      rw [hT2] at hsk
      have hn : a2 = [] := congrArg Prod.fst hsk
      rw [hn] at ha
      simp at ha
    · have := (threshold_block_mem _ _ _ _ _ _ a (by rw [hT2]; exact ha)).2
      rw [this]
      exact fun hco => hm2 (Option.some.inj hco).symm
  · by_cases hm2 : m = .system_storage_usage
    · subst hm2
      have hsk := threshold_block_skip cfg.system_storage_usage cfg.system_storage_usage
        .system_storage_usage metrics.system_storage_usage t s2 hskip
      rw [hT3] at hsk
      have hn : a3 = [] := congrArg Prod.fst hsk
      rw [hn] at ha
      simp at ha
    · have := (threshold_block_mem _ _ _ _ _ _ a (by rw [hT3]; exact ha)).2
      rw [this]
      exact fun hco => hm2 (Option.some.inj hco).symm
  · by_cases hm2 : m = .system_cpu_usage
    · subst hm2
      have hsk := threshold_block_skip cfg.system_cpu_usage cfg.system_cpu_usage
        .system_cpu_usage metrics.system_cpu_usage t s3 hskip
      rw [hT4] at hsk
      have hn : a4 = [] := congrArg Prod.fst hsk
      rw [hn] at ha
      simp at ha
    · have := (threshold_block_mem _ _ _ _ _ _ a (by rw [hT4]; exact ha)).2
      rw [this]
      exact fun hco => hm2 (Option.some.inj hco).symm
  · by_cases hm2 : m = .system_ram_usage
    · subst hm2
      have hsk := threshold_block_skip cfg.system_ram_usage cfg.system_cpu_usage
        .system_ram_usage metrics.system_ram_usage t s4 hskip
      rw [hT5] at hsk
      have hn : a5 = [] := congrArg Prod.fst hsk
      rw [hn] at ha
      simp at ha
    · have := (threshold_block_mem _ _ _ _ _ _ a (by rw [hT5]; exact ha)).2
      rw [this]
      exact fun hco => hm2 (Option.some.inj hco).symm

/-- Witness for the amended C7: with the cpu pair null, the only alert of the
processed result (the BackUp alert) is not about the cpu metric. -/
theorem no_alert_on_unchanged_or_null_witness :
    tagOf (Alert.mk .SystemBackUpAgain .INFO 100 none).kind ≠
      some MetricName.system_cpu_usage :=
  no_alert_on_unchanged_or_null cfgDownOnly metricsBackUp 100 (initial_state cfgDownOnly)
    .system_cpu_usage (by decide) (Or.inr (by decide))
    { kind := .SystemBackUpAgain, severity := .INFO, timestamp := 100, value := none }
    (by decide)

section CriticalRepeat

/-- If processing a result emits a CRITICAL alert for metric `m`, then `m` is a
usage metric, the alert carries the monitoring instant, `m`'s critical limiter
permitted beforehand and is recorded at that instant afterwards. -/
theorem process_results_critical (cfg : SystemAlertsConfig) (metrics : ResultMetrics)
    (t : ℚ) (st : SystemState) (m : MetricName) (a : Alert)
    (ha : a ∈ (process_results cfg metrics t st).1) (hc : criticalFor m a = true) :
    m ≠ .system_is_down ∧ a.timestamp = t ∧
    (process_results cfg metrics t st).2.limiters m =
      (st.limiters m).set_last_time_that_did_task t ∧
    (st.limiters m).can_do_task t = true := by
  obtain ⟨a1, s1, a2, s2, a3, s3, a4, s4, a5, s5, hB, hT2, hT3, hT4, hT5, hPR⟩ :=
    process_results_decomp cfg metrics t st
  have hfst : (process_results cfg metrics t st).1 = a1 ++ a2 ++ a3 ++ a4 ++ a5 :=
    congrArg Prod.fst hPR
  have hsnd : (process_results cfg metrics t st).2 = s5 := congrArg Prod.snd hPR
  rw [hfst] at ha
  rw [hsnd]
  have ob : ∀ m', m' ≠ .system_is_down → s1.limiters m' = st.limiters m' := by
    intro m' hm'
    have h := backup_block_other cfg.system_is_down metrics.went_down_at t st m' hm'
    rw [hB] at h
    exact h
  have o2 : ∀ m', m' ≠ .open_file_descriptors → s2.limiters m' = s1.limiters m' := by
    intro m' hm'
    have h := threshold_block_other cfg.open_file_descriptors cfg.open_file_descriptors
      .open_file_descriptors metrics.open_file_descriptors t s1 m' hm'
    rw [hT2] at h
    exact h
  have o3 : ∀ m', m' ≠ .system_storage_usage → s3.limiters m' = s2.limiters m' := by
    intro m' hm'
    have h := threshold_block_other cfg.system_storage_usage cfg.system_storage_usage
      .system_storage_usage metrics.system_storage_usage t s2 m' hm'
    rw [hT3] at h
    exact h
  have o4 : ∀ m', m' ≠ .system_cpu_usage → s4.limiters m' = s3.limiters m' := by
    intro m' hm'
    have h := threshold_block_other cfg.system_cpu_usage cfg.system_cpu_usage
      .system_cpu_usage metrics.system_cpu_usage t s3 m' hm'
    rw [hT4] at h
    exact h
  have o5 : ∀ m', m' ≠ .system_ram_usage → s5.limiters m' = s4.limiters m' := by
    intro m' hm'
    have h := threshold_block_other cfg.system_ram_usage cfg.system_cpu_usage
      .system_ram_usage metrics.system_ram_usage t s4 m' hm'
    rw [hT5] at h
    exact h
  simp only [List.mem_append] at ha
  rcases ha with ((((ha | ha) | ha) | ha) | ha)
  · exact absurd hc (by
      rw [backup_block_not_critical cfg.system_is_down metrics.went_down_at t st m a
        (by rw [hB]; exact ha)]
      simp)
  · have hts := (threshold_block_mem cfg.open_file_descriptors cfg.open_file_descriptors
      .open_file_descriptors metrics.open_file_descriptors t s1 a (by rw [hT2]; exact ha)).1
    obtain ⟨hmEq, hrec, hcan⟩ := threshold_block_critical cfg.open_file_descriptors
      cfg.open_file_descriptors .open_file_descriptors metrics.open_file_descriptors t s1 m a
      (by rw [hT2]; exact ha) hc
    subst hmEq
    rw [hT2] at hrec
    have hpre : s1.limiters MetricName.open_file_descriptors =
        st.limiters MetricName.open_file_descriptors := ob _ (by decide)
    refine ⟨by decide, hts, ?_, by rw [hpre] at hcan; exact hcan⟩
    rw [o5 _ (by decide), o4 _ (by decide), o3 _ (by decide)]
    show s2.limiters MetricName.open_file_descriptors = _
    rw [hpre] at hrec
    exact hrec
  · have hts := (threshold_block_mem cfg.system_storage_usage cfg.system_storage_usage
      .system_storage_usage metrics.system_storage_usage t s2 a (by rw [hT3]; exact ha)).1
    obtain ⟨hmEq, hrec, hcan⟩ := threshold_block_critical cfg.system_storage_usage
      cfg.system_storage_usage .system_storage_usage metrics.system_storage_usage t s2 m a
      (by rw [hT3]; exact ha) hc
    subst hmEq
    rw [hT3] at hrec
    have hpre : s2.limiters MetricName.system_storage_usage =
        st.limiters MetricName.system_storage_usage := by
      rw [o2 _ (by decide)]
      exact ob _ (by decide)
    refine ⟨by decide, hts, ?_, by rw [hpre] at hcan; exact hcan⟩
    rw [o5 _ (by decide), o4 _ (by decide)]
    show s3.limiters MetricName.system_storage_usage = _
    rw [hpre] at hrec
    exact hrec
  · have hts := (threshold_block_mem cfg.system_cpu_usage cfg.system_cpu_usage
      .system_cpu_usage metrics.system_cpu_usage t s3 a (by rw [hT4]; exact ha)).1
    obtain ⟨hmEq, hrec, hcan⟩ := threshold_block_critical cfg.system_cpu_usage
      cfg.system_cpu_usage .system_cpu_usage metrics.system_cpu_usage t s3 m a
      (by rw [hT4]; exact ha) hc
    subst hmEq
    rw [hT4] at hrec
    have hpre : s3.limiters MetricName.system_cpu_usage =
        st.limiters MetricName.system_cpu_usage := by
      rw [o3 _ (by decide), o2 _ (by decide)]
      exact ob _ (by decide)
    refine ⟨by decide, hts, ?_, by rw [hpre] at hcan; exact hcan⟩
    rw [o5 _ (by decide)]
    show s4.limiters MetricName.system_cpu_usage = _
    rw [hpre] at hrec
    exact hrec
  · have hts := (threshold_block_mem cfg.system_ram_usage cfg.system_cpu_usage
      .system_ram_usage metrics.system_ram_usage t s4 a (by rw [hT5]; exact ha)).1
    obtain ⟨hmEq, hrec, hcan⟩ := threshold_block_critical cfg.system_ram_usage
      cfg.system_cpu_usage .system_ram_usage metrics.system_ram_usage t s4 m a
      (by rw [hT5]; exact ha) hc
    subst hmEq
    rw [hT5] at hrec
    have hpre : s4.limiters MetricName.system_ram_usage =
        st.limiters MetricName.system_ram_usage := by
      rw [o4 _ (by decide), o3 _ (by decide), o2 _ (by decide)]
      exact ob _ (by decide)
    refine ⟨by decide, hts, ?_, by rw [hpre] at hcan; exact hcan⟩
    show s5.limiters MetricName.system_ram_usage = _
    rw [hpre] at hrec
    exact hrec

end CriticalRepeat

section CriticalRepeat2

/-- The flag after a result equals the flag after just the back-up block. -/
theorem process_results_sent_chain (cfg : SystemAlertsConfig) (metrics : ResultMetrics)
    (t : ℚ) (st : SystemState) :
    (process_results cfg metrics t st).2.initial_downtime_alert_sent =
      (backup_block cfg.system_is_down metrics.went_down_at t st).2.initial_downtime_alert_sent := by
  obtain ⟨a1, s1, a2, s2, a3, s3, a4, s4, a5, s5, hB, hT2, hT3, hT4, hT5, hPR⟩ :=
    process_results_decomp cfg metrics t st
  have hsnd : (process_results cfg metrics t st).2 = s5 := congrArg Prod.snd hPR
  rw [hsnd, hB]
  show s5.initial_downtime_alert_sent = s1.initial_downtime_alert_sent
  have e5 := threshold_block_sent cfg.system_ram_usage cfg.system_cpu_usage
    .system_ram_usage metrics.system_ram_usage t s4
  rw [hT5] at e5
  have e4 := threshold_block_sent cfg.system_cpu_usage cfg.system_cpu_usage
    .system_cpu_usage metrics.system_cpu_usage t s3
  rw [hT4] at e4
  have e3 := threshold_block_sent cfg.system_storage_usage cfg.system_storage_usage
    .system_storage_usage metrics.system_storage_usage t s2
  rw [hT3] at e3
  have e2 := threshold_block_sent cfg.open_file_descriptors cfg.open_file_descriptors
    .open_file_descriptors metrics.open_file_descriptors t s1
  rw [hT2] at e2
  rw [e5, e4, e3, e2]

/-- If processing a result emits no CRITICAL alert for metric `m` and leaves
`m`'s limiter non-reset, then `m`'s limiter — and, for is_down, the flag — are
unchanged. -/
theorem process_results_quiet (cfg : SystemAlertsConfig) (metrics : ResultMetrics)
    (t : ℚ) (st : SystemState) (m : MetricName)
    (h1 : ∀ a ∈ (process_results cfg metrics t st).1, criticalFor m a = false)
    (h2 : ((process_results cfg metrics t st).2.limiters m).last_time_that_did_task ≠ none) :
    (process_results cfg metrics t st).2.limiters m = st.limiters m ∧
    (m = .system_is_down →
      (process_results cfg metrics t st).2.initial_downtime_alert_sent =
        st.initial_downtime_alert_sent) := by
  obtain ⟨a1, s1, a2, s2, a3, s3, a4, s4, a5, s5, hB, hT2, hT3, hT4, hT5, hPR⟩ :=
    process_results_decomp cfg metrics t st
  have hfst : (process_results cfg metrics t st).1 = a1 ++ a2 ++ a3 ++ a4 ++ a5 :=
    congrArg Prod.fst hPR
  have hsnd : (process_results cfg metrics t st).2 = s5 := congrArg Prod.snd hPR
  rw [hfst] at h1
  rw [hsnd] at h2 ⊢
  have ob : ∀ m', m' ≠ .system_is_down → s1.limiters m' = st.limiters m' := by
    intro m' hm'
    have h := backup_block_other cfg.system_is_down metrics.went_down_at t st m' hm'
    rw [hB] at h
    exact h
  have o2 : ∀ m', m' ≠ .open_file_descriptors → s2.limiters m' = s1.limiters m' := by
    intro m' hm'
    have h := threshold_block_other cfg.open_file_descriptors cfg.open_file_descriptors
      .open_file_descriptors metrics.open_file_descriptors t s1 m' hm'
    rw [hT2] at h
    exact h
  have o3 : ∀ m', m' ≠ .system_storage_usage → s3.limiters m' = s2.limiters m' := by
    intro m' hm'
    have h := threshold_block_other cfg.system_storage_usage cfg.system_storage_usage
      .system_storage_usage metrics.system_storage_usage t s2 m' hm'
    rw [hT3] at h
    exact h
  have o4 : ∀ m', m' ≠ .system_cpu_usage → s4.limiters m' = s3.limiters m' := by
    intro m' hm'
    have h := threshold_block_other cfg.system_cpu_usage cfg.system_cpu_usage
      .system_cpu_usage metrics.system_cpu_usage t s3 m' hm'
    rw [hT4] at h
    exact h
  have o5 : ∀ m', m' ≠ .system_ram_usage → s5.limiters m' = s4.limiters m' := by
    intro m' hm'
    have h := threshold_block_other cfg.system_ram_usage cfg.system_cpu_usage
      .system_ram_usage metrics.system_ram_usage t s4 m' hm'
    rw [hT5] at h
    exact h
  have h1's : (∀ a ∈ a2, criticalFor m a = false) ∧ (∀ a ∈ a3, criticalFor m a = false) ∧
      (∀ a ∈ a4, criticalFor m a = false) ∧ (∀ a ∈ a5, criticalFor m a = false) := by
    refine ⟨?_, ?_, ?_, ?_⟩ <;> intro a ha <;> exact h1 a (by simp [ha])
  obtain ⟨hq2, hq3, hq4, hq5⟩ := h1's
  cases m with
  | system_is_down =>
    have hchain : s5.limiters MetricName.system_is_down =
        s1.limiters MetricName.system_is_down := by
      rw [o5 _ (by decide), o4 _ (by decide), o3 _ (by decide), o2 _ (by decide)]
    rw [hchain] at h2 ⊢
    have hbq := backup_block_quiet cfg.system_is_down metrics.went_down_at t st
      (by rw [hB]; exact h2)
    rw [hB] at hbq
    have hs1 : s1 = st := hbq
    constructor
    · rw [hs1]
    · intro _
      have hsc := process_results_sent_chain cfg metrics t st
      rw [hsnd, hB] at hsc
      rw [hsc]
      show s1.initial_downtime_alert_sent = st.initial_downtime_alert_sent
      rw [hs1]
  | open_file_descriptors =>
    have hchain : s5.limiters MetricName.open_file_descriptors =
        s2.limiters MetricName.open_file_descriptors := by
      rw [o5 _ (by decide), o4 _ (by decide), o3 _ (by decide)]
    rw [hchain] at h2 ⊢
    have htq := threshold_block_quiet cfg.open_file_descriptors cfg.open_file_descriptors
      .open_file_descriptors metrics.open_file_descriptors t s1
      (by rw [hT2]; exact hq2) (by rw [hT2]; exact h2)
    rw [hT2] at htq
    refine ⟨?_, fun h => absurd h (by decide)⟩
    show s2.limiters MetricName.open_file_descriptors = _
    rw [htq]
    exact ob _ (by decide)
  | system_storage_usage =>
    have hchain : s5.limiters MetricName.system_storage_usage =
        s3.limiters MetricName.system_storage_usage := by
      rw [o5 _ (by decide), o4 _ (by decide)]
    rw [hchain] at h2 ⊢
    have htq := threshold_block_quiet cfg.system_storage_usage cfg.system_storage_usage
      .system_storage_usage metrics.system_storage_usage t s2
      (by rw [hT3]; exact hq3) (by rw [hT3]; exact h2)
    rw [hT3] at htq
    refine ⟨?_, fun h => absurd h (by decide)⟩
    show s3.limiters MetricName.system_storage_usage = _
    rw [htq, o2 _ (by decide)]
    exact ob _ (by decide)
  | system_cpu_usage =>
    have hchain : s5.limiters MetricName.system_cpu_usage =
        s4.limiters MetricName.system_cpu_usage := by
      rw [o5 _ (by decide)]
    rw [hchain] at h2 ⊢
    have htq := threshold_block_quiet cfg.system_cpu_usage cfg.system_cpu_usage
      .system_cpu_usage metrics.system_cpu_usage t s3
      (by rw [hT4]; exact hq4) (by rw [hT4]; exact h2)
    rw [hT4] at htq
    refine ⟨?_, fun h => absurd h (by decide)⟩
    show s4.limiters MetricName.system_cpu_usage = _
    rw [htq, o3 _ (by decide), o2 _ (by decide)]
    exact ob _ (by decide)
  | system_ram_usage =>
    have htq := threshold_block_quiet cfg.system_ram_usage cfg.system_cpu_usage
      .system_ram_usage metrics.system_ram_usage t s4
      (by rw [hT5]; exact hq5) (by rw [hT5]; exact h2)
    rw [hT5] at htq
    refine ⟨?_, fun h => absurd h (by decide)⟩
    show s5.limiters MetricName.system_ram_usage = _
    rw [htq, o4 _ (by decide), o3 _ (by decide), o2 _ (by decide)]
    exact ob _ (by decide)

/-- Processing a result never changes any limiter's interval. -/
theorem process_results_interval (cfg : SystemAlertsConfig) (metrics : ResultMetrics)
    (t : ℚ) (st : SystemState) (m : MetricName) :
    ((process_results cfg metrics t st).2.limiters m).time_interval =
      (st.limiters m).time_interval := by
  obtain ⟨a1, s1, a2, s2, a3, s3, a4, s4, a5, s5, hB, hT2, hT3, hT4, hT5, hPR⟩ :=
    process_results_decomp cfg metrics t st
  have hsnd : (process_results cfg metrics t st).2 = s5 := congrArg Prod.snd hPR
  rw [hsnd]
  have i5 := threshold_block_interval cfg.system_ram_usage cfg.system_cpu_usage
    .system_ram_usage metrics.system_ram_usage t s4 m
  rw [hT5] at i5
  have i4 := threshold_block_interval cfg.system_cpu_usage cfg.system_cpu_usage
    .system_cpu_usage metrics.system_cpu_usage t s3 m
  rw [hT4] at i4
  have i3 := threshold_block_interval cfg.system_storage_usage cfg.system_storage_usage
    .system_storage_usage metrics.system_storage_usage t s2 m
  rw [hT3] at i3
  have i2 := threshold_block_interval cfg.open_file_descriptors cfg.open_file_descriptors
    .open_file_descriptors metrics.open_file_descriptors t s1 m
  rw [hT2] at i2
  have i1 := backup_block_interval cfg.system_is_down metrics.went_down_at t st m
  rw [hB] at i1
  show (s5.limiters m).time_interval = _
  rw [i5, i4, i3, i2]
  exact i1

end CriticalRepeat2

section CriticalRepeat3

/-- The invariant carried between two CRITICAL alerts for metric `m`: the
metric's limiter was recorded at `t`, and for is_down the initial-downtime flag
is set. -/
def InvAt (m : MetricName) (t : ℚ) (st : SystemState) : Prop :=
  (st.limiters m).last_time_that_did_task = some t ∧
  (m = .system_is_down → st.initial_downtime_alert_sent = true)

theorem can_do_task_some {l : TimedTaskLimiter} {t now : ℚ}
    (hl : l.last_time_that_did_task = some t) (h : l.can_do_task now = true) :
    l.time_interval ≤ now - t := by
  unfold TimedTaskLimiter.can_do_task at h
  rw [hl] at h
  exact of_decide_eq_true h

/-- A step that emits a CRITICAL alert for `m` at `t'` establishes the
invariant at `t'`. -/
theorem step_establishes (cfg : SystemAlertsConfig) (st : SystemState) (msg : SAMessage)
    (m : MetricName) (t' : ℚ)
    (h : emitsCriticalAt (step cfg st msg).1 m t') :
    InvAt m t' (step cfg st msg).2 := by
  obtain ⟨a, ha, hc, hts⟩ := h
  cases msg with
  | result metrics tm =>
    obtain ⟨hne, htsm, hrec, hcan⟩ := process_results_critical cfg metrics tm st m a ha hc
    have ht : t' = tm := hts.symm.trans htsm
    constructor
    · show ((process_results cfg metrics tm st).2.limiters m).last_time_that_did_task = some t'
      rw [hrec, ht]
      rfl
    · intro hmd
      exact absurd hmd hne
  | error code wda tm =>
    by_cases hmd : m = .system_is_down
    · subst hmd
      obtain ⟨htsm, hrec, hsent, hcan⟩ := process_errors_critical cfg code wda tm st a ha hc
      have ht : t' = tm := hts.symm.trans htsm
      constructor
      · show ((process_errors cfg code wda tm
            st).2.limiters MetricName.system_is_down).last_time_that_did_task = some t'
        rw [hrec, ht]
        rfl
      · intro _
        exact hsent
    · exact absurd hc (by
        rw [process_errors_no_threshold_critical cfg code wda tm st m hmd a ha]
        simp)

/-- A step that emits no CRITICAL alert for `m` and does not reset `m`'s
limiter preserves the invariant. -/
theorem step_preserves (cfg : SystemAlertsConfig) (st : SystemState) (msg : SAMessage)
    (m : MetricName) (t : ℚ) (hInv : InvAt m t st)
    (hq1 : ∀ a ∈ (step cfg st msg).1, criticalFor m a = false)
    (hq2 : ((step cfg st msg).2.limiters m).last_time_that_did_task ≠ none) :
    InvAt m t (step cfg st msg).2 := by
  cases msg with
  | result metrics tm =>
    obtain ⟨hlim, hsent⟩ := process_results_quiet cfg metrics tm st m hq1 hq2
    constructor
    · show ((process_results cfg metrics tm st).2.limiters m).last_time_that_did_task = _
      rw [hlim]
      exact hInv.1
    · intro hmd
      show (process_results cfg metrics tm st).2.initial_downtime_alert_sent = true
      rw [hsent hmd]
      exact hInv.2 hmd
  | error code wda tm =>
    by_cases hmd : m = .system_is_down
    · subst hmd
      have hpe := process_errors_quiet cfg code wda tm st (hInv.2 rfl) hq1
      constructor
      · show ((process_errors cfg code wda tm st).2.limiters _).last_time_that_did_task = _
        rw [hpe]
        exact hInv.1
      · intro _
        show (process_errors cfg code wda tm st).2.initial_downtime_alert_sent = _
        rw [hpe]
        exact hInv.2 rfl
    · constructor
      · show ((process_errors cfg code wda tm st).2.limiters m).last_time_that_did_task = _
        rw [process_errors_other_limiters cfg code wda tm st m hmd]
        exact hInv.1
      · intro h
        exact absurd h hmd

/-- Under the invariant at `t`, a step emitting a CRITICAL alert for `m` at
`t'` implies the limiter's interval has elapsed. -/
theorem step_gate (cfg : SystemAlertsConfig) (st : SystemState) (msg : SAMessage)
    (m : MetricName) (t t' : ℚ) (hInv : InvAt m t st)
    (h : emitsCriticalAt (step cfg st msg).1 m t') :
    (st.limiters m).time_interval ≤ t' - t := by
  obtain ⟨a, ha, hc, hts⟩ := h
  cases msg with
  | result metrics tm =>
    obtain ⟨hne, htsm, hrec, hcan⟩ := process_results_critical cfg metrics tm st m a ha hc
    have ht : t' = tm := hts.symm.trans htsm
    rw [ht]
    exact can_do_task_some hInv.1 hcan
  | error code wda tm =>
    by_cases hmd : m = .system_is_down
    · subst hmd
      obtain ⟨htsm, hrec, hsent, hcan⟩ := process_errors_critical cfg code wda tm st a ha hc
      have ht : t' = tm := hts.symm.trans htsm
      rw [ht]
      exact can_do_task_some hInv.1 (hcan (hInv.2 rfl))
    · exact absurd hc (by
        rw [process_errors_no_threshold_critical cfg code wda tm st m hmd a ha]
        simp)

/-- A step never changes any limiter's interval. -/
theorem step_interval (cfg : SystemAlertsConfig) (st : SystemState) (msg : SAMessage)
    (m : MetricName) :
    ((step cfg st msg).2.limiters m).time_interval = (st.limiters m).time_interval := by
  cases msg with
  | result metrics tm => exact process_results_interval cfg metrics tm st m
  | error code wda tm => exact process_errors_interval cfg code wda tm st m

/-- The invariant survives any quiet run. -/
theorem quiet_run_preserves (cfg : SystemAlertsConfig) (m : MetricName) (t : ℚ) :
    ∀ (msgs : List SAMessage) (st : SystemState), InvAt m t st →
      quietFor cfg m st msgs → InvAt m t (foldSteps cfg st msgs) := by
  intro msgs
  induction msgs with
  | nil => exact fun st h _ => h
  | cons msg rest ih =>
    intro st hInv hq
    obtain ⟨hq1, hq2, hq3⟩ := hq
    exact ih _ (step_preserves cfg st msg m t hInv hq1 hq2) hq3

/-- Limiter intervals are constant along any run. -/
theorem foldSteps_interval (cfg : SystemAlertsConfig) (m : MetricName) :
    ∀ (msgs : List SAMessage) (st : SystemState),
      ((foldSteps cfg st msgs).limiters m).time_interval =
        (st.limiters m).time_interval := by
  intro msgs
  induction msgs with
  | nil => exact fun st => rfl
  | cons msg rest ih =>
    intro st
    rw [foldSteps, ih (step cfg st msg).2, step_interval]

/-- C3: for every metric with a critical limiter (is_down included), once a
CRITICAL alert for that metric is emitted at monitoring time `t`, any later
CRITICAL alert for the same metric at monitoring time `t'` — with every step in
between neither emitting a CRITICAL alert for the metric nor resetting its
limiter — satisfies `t' - t ≥ critical_repeat`; equivalently, no further
CRITICAL alert is emitted at any `t'` with `t' - t < critical_repeat` unless
the limiter is reset in between.  The hypothesis `hI` records that the state's
limiter interval is the configured `critical_repeat`, as established by
`_create_state_for_system` for every reachable state. -/
theorem critical_repeat_rate_limited (cfg : SystemAlertsConfig) (m : MetricName)
    (st : SystemState) (msg₀ msg' : SAMessage) (msgs : List SAMessage) (t t' : ℚ)
    (hI : (st.limiters m).time_interval = (specFor cfg m).critical_repeat)
    (h₀ : emitsCriticalAt (step cfg st msg₀).1 m t)
    (hq : quietFor cfg m (step cfg st msg₀).2 msgs)
    (h' : emitsCriticalAt
      (step cfg (foldSteps cfg (step cfg st msg₀).2 msgs) msg').1 m t') :
    (specFor cfg m).critical_repeat ≤ t' - t := by
  have h1 : InvAt m t (step cfg st msg₀).2 := step_establishes cfg st msg₀ m t h₀
  have h2 : InvAt m t (foldSteps cfg (step cfg st msg₀).2 msgs) :=
    quiet_run_preserves cfg m t msgs _ h1 hq
  have h3 := step_gate cfg _ msg' m t t' h2 h'
  rw [foldSteps_interval, step_interval, hI] at h3
  exact h3

end CriticalRepeat3

def cfgCpu : SystemAlertsConfig :=
  { open_file_descriptors := disabledSpec, system_cpu_usage := cpuSpec70_90,
    system_storage_usage := disabledSpec, system_ram_usage := disabledSpec,
    system_is_down := disabledSpec }

def metricsStep1 : ResultMetrics :=
  { went_down_at := nullPair, open_file_descriptors := nullPair,
    system_storage_usage := nullPair,
    system_cpu_usage := { current := some 95, previous := some 85 },
    system_ram_usage := nullPair }

def metricsStep2 : ResultMetrics :=
  { went_down_at := nullPair, open_file_descriptors := nullPair,
    system_storage_usage := nullPair,
    system_cpu_usage := { current := some 96, previous := some 95 },
    system_ram_usage := nullPair }

/-- Witness for C3: a cpu critical alert at time 100 (rise 85 to 95 over
critical 90), an empty quiet run, and a second critical alert at time 800
(rise 95 to 96, limiter elapsed: 700 ≥ 600) — the theorem yields
`critical_repeat ≤ 800 - 100`. -/
theorem critical_repeat_rate_limited_witness :
    (specFor cfgCpu .system_cpu_usage).critical_repeat ≤ 800 - 100 :=
  critical_repeat_rate_limited cfgCpu .system_cpu_usage (initial_state cfgCpu)
    (.result metricsStep1 100) (.result metricsStep2 800) [] 100 800
    rfl
    ⟨increasedAbove .system_cpu_usage .critical .CRITICAL 95 100, by decide, by decide, rfl⟩
    trivial
    (by
      refine ⟨increasedAbove .system_cpu_usage .critical .CRITICAL 96 800, ?_, by decide, rfl⟩
      norm_num [step, foldSteps, process_results, threshold_block, backup_block,
        classify_alert, classify_warning_block, cfgCpu, cpuSpec70_90, disabledSpec,
        metricsStep1, metricsStep2, nullPair, initial_state, specFor, floaty,
        TimedTaskLimiter.can_do_task, TimedTaskLimiter.set_last_time_that_did_task,
        Function.update, increasedAbove, decreasedBelow])
